import Mathlib

/-!
Verification of `pkg/asset/tls/apiserver.go` from the kni-installer
repository: the catalog of kube-apiserver TLS assets (self-signed signer
cert/key pairs, CA bundles, and CA-signed leaf cert/key pairs), each an
asset with `Dependencies()` and `Generate(Parents)`.

The embedding translates each asset's `Dependencies` and `Generate`
methods.  `Generate` is modelled as a function from the resolved parents
to a `GenResult` recording (a) the list of assets the method reads from
the `Parents` collection via `Get`, and (b) the call it finally makes
into the certificate engine (`SignedCertKey.Generate`,
`SelfSignedCertKey.Generate` or `CertBundle.Generate`), or the error it
returns instead.  The certificate engine itself, the `cidrhost` helper,
the `apiAddress` helper and the validity constants live in source files
outside this snapshot; those are modelled from the spec and marked as
such in their doc comments.
-/

/-- An IPv4 network in CIDR form: the (masked) base address as a number
below `2 ^ 32` together with the prefix length (`ones` of the net mask),
mirroring Go's `net.IPNet` as used by `cidrhost`. -/
structure CIDR where
  ip : Nat
  maskSize : Nat
  deriving DecidableEq, Repr

/-- Dotted-quad textual form of a 32-bit IPv4 address. -/
def ipv4String (n : Nat) : String :=
  toString (n / 16777216 % 256) ++ "." ++ toString (n / 65536 % 256) ++ "."
    ++ toString (n / 256 % 256) ++ "." ++ toString (n % 256)

/-- The network base address of a CIDR: its address with the host bits
cleared. -/
def networkBase (iprange : CIDR) : Nat :=
  iprange.ip / 2 ^ (32 - iprange.maskSize) * 2 ^ (32 - iprange.maskSize)

/-- Modelled from the spec: the derived-address helper
`HostAtOffset(network CIDR, offset int) -> Result<IPAddress, Error>`,
realized in the code as `cidrhost` (defined in a source file outside
this snapshot).  It returns the textual form of the host at the given
offset inside the network and fails when the offset exceeds the
network's address space. -/
def cidrhost (iprange : CIDR) (hostNum : Nat) : Except String String :=
  if hostNum < 2 ^ (32 - iprange.maskSize) then
    Except.ok (ipv4String (networkBase iprange + hostNum))
  else
    Except.error ("prefix does not accommodate a host numbered " ++ toString hostNum)

/-- `errors.Wrap(err, msg)` from github.com/pkg/errors: the wrapped
error's message is `msg + ": " + err`. -/
def errorsWrap (err : String) (msg : String) : String :=
  msg ++ ": " ++ err

/-- Go `crypto/x509` key-usage flag `x509.KeyUsageDigitalSignature`. -/
def x509KeyUsageDigitalSignature : Nat := 1

/-- Go `crypto/x509` key-usage flag `x509.KeyUsageKeyEncipherment`. -/
def x509KeyUsageKeyEncipherment : Nat := 4

/-- Go `crypto/x509` key-usage flag `x509.KeyUsageCertSign`. -/
def x509KeyUsageCertSign : Nat := 32

/-- Whether a combined key-usage bit set includes the given flag. -/
def keyUsageIncludes (usages flag : Nat) : Bool :=
  Nat.land usages flag != 0

/-- Go `crypto/x509` extended key-usage purposes used in this file. -/
inductive ExtKeyUsage
  | serverAuth
  | clientAuth
  deriving DecidableEq, Repr

/-- Modelled from the spec: the validity-duration named constants (one
day, one year, ten years), defined in a tls source file outside this
snapshot; expressed here in hours. -/
def ValidityOneDay : Nat := 24

/-- Modelled from the spec: one-year validity constant, in hours. -/
def ValidityOneYear : Nat := 8760

/-- Modelled from the spec: ten-year validity constant, in hours. -/
def ValidityTenYears : Nat := 87600

/-- Subject name fields from `pkix.Name` used in this file. -/
structure PkixName where
  commonName : String := ""
  organization : List String := []
  organizationalUnit : List String := []
  deriving DecidableEq, Repr

/-- The certificate specification `CertCfg` handed to the certificate
engine.  `ipAddresses` holds the textual IP literals the Go code passes
to `net.ParseIP` when building the `IPAddresses` field. -/
structure CertCfg where
  subject : PkixName := {}
  keyUsages : Nat := 0
  extKeyUsages : List ExtKeyUsage := []
  validity : Nat := 0
  isCA : Bool := false
  dnsNames : List String := []
  ipAddresses : List String := []
  deriving DecidableEq, Repr

/-- The two-valued chain policy for `SignedCertKey.Generate`. -/
inductive ChainPolicy
  | appendParent
  | doNotAppendParent
  deriving DecidableEq, Repr

/-- Asset identities (types) appearing in this file, either as assets
defined here or as dependencies from other packages (`KubeCA`,
`InstallConfig`). -/
inductive AssetType
  | kubeCA
  | installConfig
  | apiServerCertKey
  | kubeAPIServerToKubeletSignerCertKey
  | kubeAPIServerToKubeletCABundle
  | kubeAPIServerToKubeletClientCertKey
  | kubeAPIServerLocalhostSignerCertKey
  | kubeAPIServerLocalhostCABundle
  | kubeAPIServerLocalhostServerCertKey
  | kubeAPIServerServiceNetworkSignerCertKey
  | kubeAPIServerServiceNetworkCABundle
  | kubeAPIServerServiceNetworkServerCertKey
  | kubeAPIServerLBSignerCertKey
  | kubeAPIServerLBCABundle
  | kubeAPIServerLBServerCertKey
  deriving DecidableEq, Repr

/-- The networking section of the install config, carrying the service
network CIDR (`installConfig.Config.Networking.ServiceCIDR.IPNet`). -/
structure Networking where
  serviceCIDR : CIDR
  deriving DecidableEq, Repr

/-- The resolved install-config asset data read by the assets in this
file.  `apiAddressString` models what the external `apiAddress` helper
derives from the config: the cluster's externally reachable API
address. -/
structure InstallConfig where
  networking : Networking
  apiAddressString : String
  deriving DecidableEq, Repr

/-- Modelled from the spec: the `apiAddress` helper (defined outside
this snapshot) returns the cluster's externally reachable API address
string supplied by the installation-configuration collaborator. -/
def apiAddress (config : InstallConfig) : String :=
  config.apiAddressString

/-- The resolved parents available to a `Generate` call.  Only the
install-config data is inspected by the assets in this file; the cert
material of parent authorities is passed through by identity. -/
structure Parents where
  installConfig : InstallConfig
  deriving DecidableEq, Repr

/-- The call a `Generate` method makes into the certificate engine. -/
inductive GenAction
  | signedCert (cfg : CertCfg) (ca : AssetType) (baseName : String) (policy : ChainPolicy)
  | selfSignedCert (cfg : CertCfg) (baseName : String)
  | certBundle (name : String) (certs : List AssetType)
  deriving DecidableEq, Repr

/-- The observable outcome of one asset's `Generate`: the assets it read
from `Parents` via `Get`, and the engine call it made or the error it
returned. -/
structure GenResult where
  reads : List AssetType
  result : Except String GenAction
  deriving Repr

/-- Shared shape of the bundle `Generate` loop: each declared dependency
is fetched with `Get` and then type-asserted to `CertInterface`
(`asset.(CertInterface)`); the loop panics if any assertion fails. -/
def interfaceConversionPanic : String :=
  "panic: interface conversion: asset.Asset is not tls.CertInterface"

/-- Which assets implement the `CertInterface` interface.  Modelled from
the spec: the interface is satisfied by key/cert-pair artifacts
(`SigningAuthority`/`KeyCertPair`, i.e. assets embedding
`SelfSignedCertKey` or `SignedCertKey`), not by the install config. -/
def implementsCertInterface : AssetType → Bool
  | AssetType.installConfig => false
  | AssetType.kubeAPIServerToKubeletCABundle => false
  | AssetType.kubeAPIServerLocalhostCABundle => false
  | AssetType.kubeAPIServerServiceNetworkCABundle => false
  | AssetType.kubeAPIServerLBCABundle => false
  | _ => true

/-- The `asset.(CertInterface)` assertions performed by a bundle's
`Generate` over its dependency list: `some` of the asserted list when
every assertion succeeds, `none` when the loop would panic. -/
def assertCertInterfaceAll (deps : List AssetType) : Option (List AssetType) :=
  deps.mapM (fun a => if implementsCertInterface a then some a else none)

/-- `APIServerCertKey.Dependencies`: the parent CA and the install
config. -/
def APIServerCertKey.dependencies : List AssetType :=
  [AssetType.kubeCA, AssetType.installConfig]

/-- The `CertCfg` literal built by `APIServerCertKey.Generate`. -/
def APIServerCertKey.certCfg (installConfig : InstallConfig) (apiServerAddress : String) : CertCfg :=
  { subject := { commonName := "system:kube-apiserver", organization := ["kube-master"] }
    keyUsages := Nat.lor x509KeyUsageKeyEncipherment x509KeyUsageDigitalSignature
    extKeyUsages := [ExtKeyUsage.serverAuth, ExtKeyUsage.clientAuth]
    validity := ValidityTenYears
    dnsNames := [apiAddress installConfig,
      "kubernetes", "kubernetes.default",
      "kubernetes.default.svc",
      "kubernetes.default.svc.cluster.local",
      "localhost"]
    ipAddresses := [apiServerAddress, "127.0.0.1"] }

/-- `APIServerCertKey.Generate`: reads `KubeCA` and `InstallConfig`,
derives the API server address from the service CIDR, and calls
`SignedCertKey.Generate` with base name "apiserver" and `AppendParent`,
or returns the wrapped `cidrhost` error. -/
def APIServerCertKey.generate (dependencies : Parents) : GenResult :=
  { reads := [AssetType.kubeCA, AssetType.installConfig]
    result :=
      match cidrhost dependencies.installConfig.networking.serviceCIDR 1 with
      | Except.error err =>
          Except.error (errorsWrap err "failed to get API Server address from InstallConfig")
      | Except.ok apiServerAddress =>
          Except.ok (GenAction.signedCert
            (APIServerCertKey.certCfg dependencies.installConfig apiServerAddress)
            AssetType.kubeCA "apiserver" ChainPolicy.appendParent) }

/-- `KubeAPIServerToKubeletSignerCertKey.Dependencies`: empty. -/
def KubeAPIServerToKubeletSignerCertKey.dependencies : List AssetType := []

/-- The `CertCfg` literal built by
`KubeAPIServerToKubeletSignerCertKey.Generate`. -/
def KubeAPIServerToKubeletSignerCertKey.certCfg : CertCfg :=
  { subject := { commonName := "kube-apiserver-to-kubelet-signer", organizationalUnit := ["openshift"] }
    keyUsages := Nat.lor (Nat.lor x509KeyUsageKeyEncipherment x509KeyUsageDigitalSignature) x509KeyUsageCertSign
    validity := ValidityOneYear
    isCA := true }

/-- `KubeAPIServerToKubeletSignerCertKey.Generate`: reads nothing and
calls `SelfSignedCertKey.Generate`. -/
def KubeAPIServerToKubeletSignerCertKey.generate (_parents : Parents) : GenResult :=
  { reads := []
    result := Except.ok (GenAction.selfSignedCert
      KubeAPIServerToKubeletSignerCertKey.certCfg
      "kube-apiserver-to-kubelet-signer") }

/-- `KubeAPIServerToKubeletCABundle.Dependencies`. -/
def KubeAPIServerToKubeletCABundle.dependencies : List AssetType :=
  [AssetType.kubeAPIServerToKubeletSignerCertKey]

/-- `KubeAPIServerToKubeletCABundle.Generate`: gets each declared
dependency, asserts it to `CertInterface`, and calls
`CertBundle.Generate` with the collected certs. -/
def KubeAPIServerToKubeletCABundle.generate (_deps : Parents) : GenResult :=
  { reads := KubeAPIServerToKubeletCABundle.dependencies
    result :=
      match assertCertInterfaceAll KubeAPIServerToKubeletCABundle.dependencies with
      | some certs => Except.ok (GenAction.certBundle "kube-apiserver-to-kubelet-ca-bundle" certs)
      | none => Except.error interfaceConversionPanic }

/-- `KubeAPIServerToKubeletClientCertKey.Dependencies`. -/
def KubeAPIServerToKubeletClientCertKey.dependencies : List AssetType :=
  [AssetType.kubeAPIServerToKubeletSignerCertKey]

/-- The `CertCfg` literal built by
`KubeAPIServerToKubeletClientCertKey.Generate`. -/
def KubeAPIServerToKubeletClientCertKey.certCfg : CertCfg :=
  { subject := { commonName := "system:kube-apiserver", organization := ["kube-master"] }
    keyUsages := Nat.lor x509KeyUsageKeyEncipherment x509KeyUsageDigitalSignature
    extKeyUsages := [ExtKeyUsage.clientAuth]
    validity := ValidityOneYear }

/-- `KubeAPIServerToKubeletClientCertKey.Generate`: reads its signer CA
and calls `SignedCertKey.Generate` with `DoNotAppendParent`. -/
def KubeAPIServerToKubeletClientCertKey.generate (_dependencies : Parents) : GenResult :=
  { reads := [AssetType.kubeAPIServerToKubeletSignerCertKey]
    result := Except.ok (GenAction.signedCert
      KubeAPIServerToKubeletClientCertKey.certCfg
      AssetType.kubeAPIServerToKubeletSignerCertKey
      "kube-apiserver-to-kubelet-client" ChainPolicy.doNotAppendParent) }

/-- `KubeAPIServerLocalhostSignerCertKey.Dependencies`: empty. -/
def KubeAPIServerLocalhostSignerCertKey.dependencies : List AssetType := []

/-- The `CertCfg` literal built by
`KubeAPIServerLocalhostSignerCertKey.Generate`. -/
def KubeAPIServerLocalhostSignerCertKey.certCfg : CertCfg :=
  { subject := { commonName := "kube-apiserver-localhost-signer", organizationalUnit := ["openshift"] }
    keyUsages := Nat.lor (Nat.lor x509KeyUsageKeyEncipherment x509KeyUsageDigitalSignature) x509KeyUsageCertSign
    validity := ValidityTenYears
    isCA := true }

/-- `KubeAPIServerLocalhostSignerCertKey.Generate`. -/
def KubeAPIServerLocalhostSignerCertKey.generate (_parents : Parents) : GenResult :=
  { reads := []
    result := Except.ok (GenAction.selfSignedCert
      KubeAPIServerLocalhostSignerCertKey.certCfg
      "kube-apiserver-localhost-signer") }

/-- `KubeAPIServerLocalhostCABundle.Dependencies`. -/
def KubeAPIServerLocalhostCABundle.dependencies : List AssetType :=
  [AssetType.kubeAPIServerLocalhostSignerCertKey]

/-- `KubeAPIServerLocalhostCABundle.Generate`. -/
def KubeAPIServerLocalhostCABundle.generate (_deps : Parents) : GenResult :=
  { reads := KubeAPIServerLocalhostCABundle.dependencies
    result :=
      match assertCertInterfaceAll KubeAPIServerLocalhostCABundle.dependencies with
      | some certs => Except.ok (GenAction.certBundle "kube-apiserver-localhost-ca-bundle" certs)
      | none => Except.error interfaceConversionPanic }

/-- `KubeAPIServerLocalhostServerCertKey.Dependencies`. -/
def KubeAPIServerLocalhostServerCertKey.dependencies : List AssetType :=
  [AssetType.kubeAPIServerLocalhostSignerCertKey]

/-- The `CertCfg` literal built by
`KubeAPIServerLocalhostServerCertKey.Generate`. -/
def KubeAPIServerLocalhostServerCertKey.certCfg : CertCfg :=
  { subject := { commonName := "system:kube-apiserver", organization := ["kube-master"] }
    keyUsages := Nat.lor x509KeyUsageKeyEncipherment x509KeyUsageDigitalSignature
    extKeyUsages := [ExtKeyUsage.serverAuth]
    validity := ValidityOneDay
    dnsNames := ["localhost"]
    ipAddresses := ["127.0.0.1", "::1"] }

/-- `KubeAPIServerLocalhostServerCertKey.Generate`: reads its signer CA
and calls `SignedCertKey.Generate` with `AppendParent`. -/
def KubeAPIServerLocalhostServerCertKey.generate (_dependencies : Parents) : GenResult :=
  { reads := [AssetType.kubeAPIServerLocalhostSignerCertKey]
    result := Except.ok (GenAction.signedCert
      KubeAPIServerLocalhostServerCertKey.certCfg
      AssetType.kubeAPIServerLocalhostSignerCertKey
      "kube-apiserver-localhost-server" ChainPolicy.appendParent) }

/-- `KubeAPIServerServiceNetworkSignerCertKey.Dependencies`: empty. -/
def KubeAPIServerServiceNetworkSignerCertKey.dependencies : List AssetType := []

/-- The `CertCfg` literal built by
`KubeAPIServerServiceNetworkSignerCertKey.Generate`. -/
def KubeAPIServerServiceNetworkSignerCertKey.certCfg : CertCfg :=
  { subject := { commonName := "kube-apiserver-service-network-signer", organizationalUnit := ["openshift"] }
    keyUsages := Nat.lor (Nat.lor x509KeyUsageKeyEncipherment x509KeyUsageDigitalSignature) x509KeyUsageCertSign
    validity := ValidityTenYears
    isCA := true }

/-- `KubeAPIServerServiceNetworkSignerCertKey.Generate`. -/
def KubeAPIServerServiceNetworkSignerCertKey.generate (_parents : Parents) : GenResult :=
  { reads := []
    result := Except.ok (GenAction.selfSignedCert
      KubeAPIServerServiceNetworkSignerCertKey.certCfg
      "kube-apiserver-service-network-signer") }

/-- `KubeAPIServerServiceNetworkCABundle.Dependencies`. -/
def KubeAPIServerServiceNetworkCABundle.dependencies : List AssetType :=
  [AssetType.kubeAPIServerServiceNetworkSignerCertKey]

/-- `KubeAPIServerServiceNetworkCABundle.Generate`. -/
def KubeAPIServerServiceNetworkCABundle.generate (_deps : Parents) : GenResult :=
  { reads := KubeAPIServerServiceNetworkCABundle.dependencies
    result :=
      match assertCertInterfaceAll KubeAPIServerServiceNetworkCABundle.dependencies with
      | some certs => Except.ok (GenAction.certBundle "kube-apiserver-service-network-ca-bundle" certs)
      | none => Except.error interfaceConversionPanic }

/-- `KubeAPIServerServiceNetworkServerCertKey.Dependencies`. -/
def KubeAPIServerServiceNetworkServerCertKey.dependencies : List AssetType :=
  [AssetType.kubeAPIServerServiceNetworkSignerCertKey, AssetType.installConfig]

/-- The `CertCfg` literal built by
`KubeAPIServerServiceNetworkServerCertKey.Generate`. -/
def KubeAPIServerServiceNetworkServerCertKey.certCfg (serviceAddress : String) : CertCfg :=
  { subject := { commonName := "system:kube-apiserver", organization := ["kube-master"] }
    keyUsages := Nat.lor x509KeyUsageKeyEncipherment x509KeyUsageDigitalSignature
    extKeyUsages := [ExtKeyUsage.serverAuth]
    validity := ValidityOneDay
    dnsNames := ["kubernetes", "kubernetes.default",
      "kubernetes.default.svc",
      "kubernetes.default.svc.cluster.local"]
    ipAddresses := [serviceAddress] }

/-- `KubeAPIServerServiceNetworkServerCertKey.Generate`: reads its
signer CA and the install config, derives the service address from the
service CIDR, and calls `SignedCertKey.Generate` with `AppendParent`,
or returns the wrapped `cidrhost` error. -/
def KubeAPIServerServiceNetworkServerCertKey.generate (dependencies : Parents) : GenResult :=
  { reads := [AssetType.kubeAPIServerServiceNetworkSignerCertKey, AssetType.installConfig]
    result :=
      match cidrhost dependencies.installConfig.networking.serviceCIDR 1 with
      | Except.error err =>
          Except.error (errorsWrap err "failed to get service address for kube-apiserver from InstallConfig")
      | Except.ok serviceAddress =>
          Except.ok (GenAction.signedCert
            (KubeAPIServerServiceNetworkServerCertKey.certCfg serviceAddress)
            AssetType.kubeAPIServerServiceNetworkSignerCertKey
            "kube-apiserver-service-network-server" ChainPolicy.appendParent) }

/-- `KubeAPIServerLBSignerCertKey.Dependencies`: empty. -/
def KubeAPIServerLBSignerCertKey.dependencies : List AssetType := []

/-- The `CertCfg` literal built by `KubeAPIServerLBSignerCertKey.Generate`. -/
def KubeAPIServerLBSignerCertKey.certCfg : CertCfg :=
  { subject := { commonName := "kube-apiserver-lb-signer", organizationalUnit := ["openshift"] }
    keyUsages := Nat.lor (Nat.lor x509KeyUsageKeyEncipherment x509KeyUsageDigitalSignature) x509KeyUsageCertSign
    validity := ValidityTenYears
    isCA := true }

/-- `KubeAPIServerLBSignerCertKey.Generate`. -/
def KubeAPIServerLBSignerCertKey.generate (_parents : Parents) : GenResult :=
  { reads := []
    result := Except.ok (GenAction.selfSignedCert
      KubeAPIServerLBSignerCertKey.certCfg
      "kube-apiserver-lb-signer") }

/-- `KubeAPIServerLBCABundle.Dependencies`. -/
def KubeAPIServerLBCABundle.dependencies : List AssetType :=
  [AssetType.kubeAPIServerLBSignerCertKey]

/-- `KubeAPIServerLBCABundle.Generate`. -/
def KubeAPIServerLBCABundle.generate (_deps : Parents) : GenResult :=
  { reads := KubeAPIServerLBCABundle.dependencies
    result :=
      match assertCertInterfaceAll KubeAPIServerLBCABundle.dependencies with
      | some certs => Except.ok (GenAction.certBundle "kube-apiserver-lb-ca-bundle" certs)
      | none => Except.error interfaceConversionPanic }

/-- `KubeAPIServerLBServerCertKey.Dependencies`. -/
def KubeAPIServerLBServerCertKey.dependencies : List AssetType :=
  [AssetType.kubeAPIServerLBSignerCertKey, AssetType.installConfig]

/-- The `CertCfg` literal built by `KubeAPIServerLBServerCertKey.Generate`. -/
def KubeAPIServerLBServerCertKey.certCfg (installConfig : InstallConfig) : CertCfg :=
  { subject := { commonName := "system:kube-apiserver", organization := ["kube-master"] }
    keyUsages := Nat.lor x509KeyUsageKeyEncipherment x509KeyUsageDigitalSignature
    extKeyUsages := [ExtKeyUsage.serverAuth]
    validity := ValidityOneDay
    dnsNames := [apiAddress installConfig] }

/-- `KubeAPIServerLBServerCertKey.Generate`: reads its signer CA and the
install config and calls `SignedCertKey.Generate` with `AppendParent`. -/
def KubeAPIServerLBServerCertKey.generate (dependencies : Parents) : GenResult :=
  { reads := [AssetType.kubeAPIServerLBSignerCertKey, AssetType.installConfig]
    result := Except.ok (GenAction.signedCert
      (KubeAPIServerLBServerCertKey.certCfg dependencies.installConfig)
      AssetType.kubeAPIServerLBSignerCertKey
      "kube-apiserver-lb-server" ChainPolicy.appendParent) }

/-- The assets defined in `pkg/asset/tls/apiserver.go`. -/
inductive FileAsset
  | apiServerCertKey
  | kubeAPIServerToKubeletSignerCertKey
  | kubeAPIServerToKubeletCABundle
  | kubeAPIServerToKubeletClientCertKey
  | kubeAPIServerLocalhostSignerCertKey
  | kubeAPIServerLocalhostCABundle
  | kubeAPIServerLocalhostServerCertKey
  | kubeAPIServerServiceNetworkSignerCertKey
  | kubeAPIServerServiceNetworkCABundle
  | kubeAPIServerServiceNetworkServerCertKey
  | kubeAPIServerLBSignerCertKey
  | kubeAPIServerLBCABundle
  | kubeAPIServerLBServerCertKey
  deriving DecidableEq, Repr

/-- Dispatch of the `Dependencies()` methods over the file's assets. -/
def FileAsset.declaredDependencies : FileAsset → List AssetType
  | FileAsset.apiServerCertKey => APIServerCertKey.dependencies
  | FileAsset.kubeAPIServerToKubeletSignerCertKey => KubeAPIServerToKubeletSignerCertKey.dependencies
  | FileAsset.kubeAPIServerToKubeletCABundle => KubeAPIServerToKubeletCABundle.dependencies
  | FileAsset.kubeAPIServerToKubeletClientCertKey => KubeAPIServerToKubeletClientCertKey.dependencies
  | FileAsset.kubeAPIServerLocalhostSignerCertKey => KubeAPIServerLocalhostSignerCertKey.dependencies
  | FileAsset.kubeAPIServerLocalhostCABundle => KubeAPIServerLocalhostCABundle.dependencies
  | FileAsset.kubeAPIServerLocalhostServerCertKey => KubeAPIServerLocalhostServerCertKey.dependencies
  | FileAsset.kubeAPIServerServiceNetworkSignerCertKey => KubeAPIServerServiceNetworkSignerCertKey.dependencies
  | FileAsset.kubeAPIServerServiceNetworkCABundle => KubeAPIServerServiceNetworkCABundle.dependencies
  | FileAsset.kubeAPIServerServiceNetworkServerCertKey => KubeAPIServerServiceNetworkServerCertKey.dependencies
  | FileAsset.kubeAPIServerLBSignerCertKey => KubeAPIServerLBSignerCertKey.dependencies
  | FileAsset.kubeAPIServerLBCABundle => KubeAPIServerLBCABundle.dependencies
  | FileAsset.kubeAPIServerLBServerCertKey => KubeAPIServerLBServerCertKey.dependencies

/-- Dispatch of the `Generate(Parents)` methods over the file's assets. -/
def FileAsset.generate : FileAsset → Parents → GenResult
  | FileAsset.apiServerCertKey, p => APIServerCertKey.generate p
  | FileAsset.kubeAPIServerToKubeletSignerCertKey, p => KubeAPIServerToKubeletSignerCertKey.generate p
  | FileAsset.kubeAPIServerToKubeletCABundle, p => KubeAPIServerToKubeletCABundle.generate p
  | FileAsset.kubeAPIServerToKubeletClientCertKey, p => KubeAPIServerToKubeletClientCertKey.generate p
  | FileAsset.kubeAPIServerLocalhostSignerCertKey, p => KubeAPIServerLocalhostSignerCertKey.generate p
  | FileAsset.kubeAPIServerLocalhostCABundle, p => KubeAPIServerLocalhostCABundle.generate p
  | FileAsset.kubeAPIServerLocalhostServerCertKey, p => KubeAPIServerLocalhostServerCertKey.generate p
  | FileAsset.kubeAPIServerServiceNetworkSignerCertKey, p => KubeAPIServerServiceNetworkSignerCertKey.generate p
  | FileAsset.kubeAPIServerServiceNetworkCABundle, p => KubeAPIServerServiceNetworkCABundle.generate p
  | FileAsset.kubeAPIServerServiceNetworkServerCertKey, p => KubeAPIServerServiceNetworkServerCertKey.generate p
  | FileAsset.kubeAPIServerLBSignerCertKey, p => KubeAPIServerLBSignerCertKey.generate p
  | FileAsset.kubeAPIServerLBCABundle, p => KubeAPIServerLBCABundle.generate p
  | FileAsset.kubeAPIServerLBServerCertKey, p => KubeAPIServerLBServerCertKey.generate p

/-- The `CertCfg` a `Generate` outcome hands to the certificate engine,
when it reaches the engine with a cert/key call. -/
def genCfg (r : GenResult) : Option CertCfg :=
  match r.result with
  | Except.ok (GenAction.signedCert cfg _ _ _) => some cfg
  | Except.ok (GenAction.selfSignedCert cfg _) => some cfg
  | _ => none

/-- The full `SignedCertKey.Generate` call made by a `Generate` outcome,
when there is one. -/
def genSignedCall (r : GenResult) : Option (CertCfg × AssetType × String × ChainPolicy) :=
  match r.result with
  | Except.ok (GenAction.signedCert cfg ca baseName policy) => some (cfg, ca, baseName, policy)
  | _ => none

/-- The `CertBundle.Generate` call made by a `Generate` outcome, when
there is one. -/
def genBundleCall (r : GenResult) : Option (String × List AssetType) :=
  match r.result with
  | Except.ok (GenAction.certBundle name certs) => some (name, certs)
  | _ => none

/-- A concrete resolved-parents value used to instantiate universally
quantified theorems: service CIDR `10.0.0.0/16`. -/
def parents0 : Parents :=
  { installConfig :=
      { networking := { serviceCIDR := { ip := 167772160, maskSize := 16 } }
        apiAddressString := "api.test-cluster.example.com" } }

/-- A resolved-parents value whose service CIDR (`/32`) has no room for
host number 1, so `cidrhost` fails. -/
def parentsBadCIDR : Parents :=
  { installConfig :=
      { networking := { serviceCIDR := { ip := 167772160, maskSize := 32 } }
        apiAddressString := "api.test-cluster.example.com" } }

/-- Helper: any `CertCfg` that `APIServerCertKey.Generate` hands to the
engine is the file's literal built from the install config and a
successfully derived service address. -/
theorem apiServer_genCfg_shape (p : Parents) (cfg : CertCfg)
    (h : genCfg (APIServerCertKey.generate p) = some cfg) :
    ∃ addr, cidrhost p.installConfig.networking.serviceCIDR 1 = Except.ok addr
      ∧ cfg = APIServerCertKey.certCfg p.installConfig addr := by
  unfold APIServerCertKey.generate genCfg at h
  rcases hc : cidrhost p.installConfig.networking.serviceCIDR 1 with e | addr <;> rw [hc] at h
  · simp at h
  · simp at h
    exact ⟨addr, rfl, h.symm⟩

/-- Helper: the analogous cfg characterization for
`KubeAPIServerServiceNetworkServerCertKey.Generate`. -/
theorem serviceNetworkServer_genCfg_shape (p : Parents) (cfg : CertCfg)
    (h : genCfg (KubeAPIServerServiceNetworkServerCertKey.generate p) = some cfg) :
    ∃ addr, cidrhost p.installConfig.networking.serviceCIDR 1 = Except.ok addr
      ∧ cfg = KubeAPIServerServiceNetworkServerCertKey.certCfg addr := by
  unfold KubeAPIServerServiceNetworkServerCertKey.generate genCfg at h
  rcases hc : cidrhost p.installConfig.networking.serviceCIDR 1 with e | addr <;> rw [hc] at h
  · simp at h
  · simp at h
    exact ⟨addr, rfl, h.symm⟩

/-- Helper: the full `SignedCertKey.Generate` call made by
`APIServerCertKey.Generate`, when it reaches the engine. -/
theorem apiServer_genSignedCall_shape (p : Parents) (t : CertCfg × AssetType × String × ChainPolicy)
    (h : genSignedCall (APIServerCertKey.generate p) = some t) :
    ∃ addr, cidrhost p.installConfig.networking.serviceCIDR 1 = Except.ok addr
      ∧ t = (APIServerCertKey.certCfg p.installConfig addr,
          AssetType.kubeCA, "apiserver", ChainPolicy.appendParent) := by
  unfold APIServerCertKey.generate genSignedCall at h
  rcases hc : cidrhost p.installConfig.networking.serviceCIDR 1 with e | addr <;> rw [hc] at h
  · simp at h
  · simp at h
    exact ⟨addr, rfl, h.symm⟩

/-- Helper: the full `SignedCertKey.Generate` call made by
`KubeAPIServerServiceNetworkServerCertKey.Generate`. -/
theorem serviceNetworkServer_genSignedCall_shape (p : Parents) (t : CertCfg × AssetType × String × ChainPolicy)
    (h : genSignedCall (KubeAPIServerServiceNetworkServerCertKey.generate p) = some t) :
    ∃ addr, cidrhost p.installConfig.networking.serviceCIDR 1 = Except.ok addr
      ∧ t = (KubeAPIServerServiceNetworkServerCertKey.certCfg addr,
          AssetType.kubeAPIServerServiceNetworkSignerCertKey,
          "kube-apiserver-service-network-server", ChainPolicy.appendParent) := by
  unfold KubeAPIServerServiceNetworkServerCertKey.generate genSignedCall at h
  rcases hc : cidrhost p.installConfig.networking.serviceCIDR 1 with e | addr <;> rw [hc] at h
  · simp at h
  · simp at h
    exact ⟨addr, rfl, h.symm⟩

/-- C1: for every asset defined in `pkg/asset/tls/apiserver.go`, the set
of assets its `Generate` reads from the `Parents` collection via `Get`
is exactly (as the same ordered list) the set of assets returned by its
`Dependencies()` method, for every resolved-parents value. -/
theorem generate_reads_eq_dependencies (a : FileAsset) (p : Parents) :
    (FileAsset.generate a p).reads = FileAsset.declaredDependencies a := by
  cases a <;> rfl

/-- C2: every `CertCfg` constructed by a `Generate` method in this file
with `IsCA` set to true has the certificate-signing key usage
(`x509.KeyUsageCertSign`) included in its `KeyUsages`. -/
theorem certCfg_isCA_has_certSign (a : FileAsset) (p : Parents) (cfg : CertCfg)
    (hcfg : genCfg (FileAsset.generate a p) = some cfg) (hca : cfg.isCA = true) :
    keyUsageIncludes cfg.keyUsages x509KeyUsageCertSign = true := by
  cases a
  case apiServerCertKey =>
    obtain ⟨addr, -, rfl⟩ := apiServer_genCfg_shape p cfg hcfg
    exact absurd hca (by simp [APIServerCertKey.certCfg])
  case kubeAPIServerServiceNetworkServerCertKey =>
    obtain ⟨addr, -, rfl⟩ := serviceNetworkServer_genCfg_shape p cfg hcfg
    exact absurd hca (by simp [KubeAPIServerServiceNetworkServerCertKey.certCfg])
  case kubeAPIServerToKubeletSignerCertKey =>
    obtain rfl : KubeAPIServerToKubeletSignerCertKey.certCfg = cfg := Option.some.inj hcfg
    decide
  case kubeAPIServerLocalhostSignerCertKey =>
    obtain rfl : KubeAPIServerLocalhostSignerCertKey.certCfg = cfg := Option.some.inj hcfg
    decide
  case kubeAPIServerServiceNetworkSignerCertKey =>
    obtain rfl : KubeAPIServerServiceNetworkSignerCertKey.certCfg = cfg := Option.some.inj hcfg
    decide
  case kubeAPIServerLBSignerCertKey =>
    obtain rfl : KubeAPIServerLBSignerCertKey.certCfg = cfg := Option.some.inj hcfg
    decide
  case kubeAPIServerToKubeletClientCertKey =>
    obtain rfl : KubeAPIServerToKubeletClientCertKey.certCfg = cfg := Option.some.inj hcfg
    exact absurd hca (by decide)
  case kubeAPIServerLocalhostServerCertKey =>
    obtain rfl : KubeAPIServerLocalhostServerCertKey.certCfg = cfg := Option.some.inj hcfg
    exact absurd hca (by decide)
  case kubeAPIServerLBServerCertKey =>
    obtain rfl : KubeAPIServerLBServerCertKey.certCfg p.installConfig = cfg := Option.some.inj hcfg
    exact absurd hca (by simp [KubeAPIServerLBServerCertKey.certCfg])
  case kubeAPIServerToKubeletCABundle => exact Option.noConfusion hcfg
  case kubeAPIServerLocalhostCABundle => exact Option.noConfusion hcfg
  case kubeAPIServerServiceNetworkCABundle => exact Option.noConfusion hcfg
  case kubeAPIServerLBCABundle => exact Option.noConfusion hcfg

/-- C2 witness: the to-kubelet signer's `CertCfg` is a concrete CA cfg
whose key usages include certificate signing. -/
theorem certCfg_isCA_has_certSign_witness :
    KubeAPIServerToKubeletSignerCertKey.certCfg.isCA = true
    ∧ keyUsageIncludes KubeAPIServerToKubeletSignerCertKey.certCfg.keyUsages
        x509KeyUsageCertSign = true :=
  ⟨rfl, certCfg_isCA_has_certSign FileAsset.kubeAPIServerToKubeletSignerCertKey parents0
    KubeAPIServerToKubeletSignerCertKey.certCfg rfl rfl⟩

/-- C3 counterexample: at a concrete install config (service CIDR
`10.0.0.0/16`), the `CertCfg` built by `APIServerCertKey.Generate` does
NOT have one-day validity, contrary to the claim: the code passes
`ValidityTenYears`. -/
theorem apiServer_validity_cex :
    ∃ cfg, genCfg (FileAsset.generate FileAsset.apiServerCertKey parents0) = some cfg
      ∧ cfg.validity ≠ ValidityOneDay :=
  ⟨APIServerCertKey.certCfg parents0.installConfig "10.0.0.1", rfl, by decide⟩

/-- C3 (amended): the api-server leaf certificate asset
(`APIServerCertKey`, base name "apiserver") builds its certificate
specification with ten-year validity (`ValidityTenYears`). -/
theorem apiServer_validity_ten_years (p : Parents) (cfg : CertCfg)
    (h : genCfg (FileAsset.generate FileAsset.apiServerCertKey p) = some cfg) :
    cfg.validity = ValidityTenYears := by
  obtain ⟨addr, -, rfl⟩ := apiServer_genCfg_shape p cfg h
  rfl

/-- C3 witness: the amended statement instantiated at a concrete
install config where generation succeeds. -/
theorem apiServer_validity_ten_years_witness :
    genCfg (FileAsset.generate FileAsset.apiServerCertKey parents0)
        = some (APIServerCertKey.certCfg parents0.installConfig "10.0.0.1")
    ∧ (APIServerCertKey.certCfg parents0.installConfig "10.0.0.1").validity = ValidityTenYears :=
  ⟨rfl, apiServer_validity_ten_years parents0
    (APIServerCertKey.certCfg parents0.installConfig "10.0.0.1") rfl⟩

/-- C4: for an install config whose service CIDR is `10.0.0.0/16`, the
certificate specification built by `APIServerCertKey.Generate` includes
the DNS SAN "kubernetes.default", the IP SAN `10.0.0.1` (the first
usable host of the service CIDR), and the cluster's externally
reachable API address among the DNS names, whatever that address is. -/
theorem apiServer_san_contents (apiAddr : String) :
    ∃ cfg,
      genCfg (FileAsset.generate FileAsset.apiServerCertKey
        { installConfig :=
            { networking := { serviceCIDR := { ip := 167772160, maskSize := 16 } }
              apiAddressString := apiAddr } }) = some cfg
      ∧ "kubernetes.default" ∈ cfg.dnsNames
      ∧ "10.0.0.1" ∈ cfg.ipAddresses
      ∧ apiAddr ∈ cfg.dnsNames := by
  refine ⟨APIServerCertKey.certCfg
      { networking := { serviceCIDR := { ip := 167772160, maskSize := 16 } }
        apiAddressString := apiAddr } "10.0.0.1", ?_, ?_, ?_, ?_⟩
  · simp only [FileAsset.generate, APIServerCertKey.generate, genCfg]
    rw [show cidrhost ({ ip := 167772160, maskSize := 16 } : CIDR) 1 = Except.ok "10.0.0.1" from rfl]
  · exact List.Mem.tail _ (List.Mem.tail _ (List.Mem.head _))
  · exact List.Mem.head _
  · exact List.Mem.head _

/-- C5: every CA-bundle asset's `Generate` passes to
`CertBundle.Generate` exactly the certificates of its declared
dependencies, in the order of its `Dependencies()` list, together with
the bundle's name. -/
theorem bundle_certs_eq_declared_dependencies (p : Parents) :
    genBundleCall (FileAsset.generate FileAsset.kubeAPIServerToKubeletCABundle p)
        = some ("kube-apiserver-to-kubelet-ca-bundle", KubeAPIServerToKubeletCABundle.dependencies)
    ∧ genBundleCall (FileAsset.generate FileAsset.kubeAPIServerLocalhostCABundle p)
        = some ("kube-apiserver-localhost-ca-bundle", KubeAPIServerLocalhostCABundle.dependencies)
    ∧ genBundleCall (FileAsset.generate FileAsset.kubeAPIServerServiceNetworkCABundle p)
        = some ("kube-apiserver-service-network-ca-bundle", KubeAPIServerServiceNetworkCABundle.dependencies)
    ∧ genBundleCall (FileAsset.generate FileAsset.kubeAPIServerLBCABundle p)
        = some ("kube-apiserver-lb-ca-bundle", KubeAPIServerLBCABundle.dependencies) :=
  ⟨rfl, rfl, rfl, rfl⟩

/-- C6: when deriving the service address from the install config's
service CIDR fails, `APIServerCertKey.Generate` and
`KubeAPIServerServiceNetworkServerCertKey.Generate` return the
`cidrhost` error wrapped with their diagnostic messages and make no
call into `SignedCertKey.Generate` (the result is an error, not an
engine call). -/
theorem cidrhost_failure_aborts_generate (p : Parents) (e : String)
    (h : cidrhost p.installConfig.networking.serviceCIDR 1 = Except.error e) :
    (FileAsset.generate FileAsset.apiServerCertKey p).result
        = Except.error (errorsWrap e "failed to get API Server address from InstallConfig")
    ∧ (FileAsset.generate FileAsset.kubeAPIServerServiceNetworkServerCertKey p).result
        = Except.error (errorsWrap e "failed to get service address for kube-apiserver from InstallConfig") := by
  constructor
  · show (APIServerCertKey.generate p).result = _
    unfold APIServerCertKey.generate
    rw [h]
  · show (KubeAPIServerServiceNetworkServerCertKey.generate p).result = _
    unfold KubeAPIServerServiceNetworkServerCertKey.generate
    rw [h]

/-- C6 witness: with a `/32` service CIDR, `cidrhost` fails for host
number 1 and both assets return the wrapped error. -/
theorem cidrhost_failure_aborts_generate_witness :
    cidrhost parentsBadCIDR.installConfig.networking.serviceCIDR 1
        = Except.error "prefix does not accommodate a host numbered 1"
    ∧ (FileAsset.generate FileAsset.apiServerCertKey parentsBadCIDR).result
        = Except.error (errorsWrap "prefix does not accommodate a host numbered 1"
            "failed to get API Server address from InstallConfig")
    ∧ (FileAsset.generate FileAsset.kubeAPIServerServiceNetworkServerCertKey parentsBadCIDR).result
        = Except.error (errorsWrap "prefix does not accommodate a host numbered 1"
            "failed to get service address for kube-apiserver from InstallConfig") :=
  ⟨rfl,
    (cidrhost_failure_aborts_generate parentsBadCIDR
      "prefix does not accommodate a host numbered 1" rfl).1,
    (cidrhost_failure_aborts_generate parentsBadCIDR
      "prefix does not accommodate a host numbered 1" rfl).2⟩

/-- C7: every self-signed signer (root authority) asset in this file
returns the empty sequence from `Dependencies()`. -/
theorem signer_dependencies_empty :
    KubeAPIServerToKubeletSignerCertKey.dependencies = ([] : List AssetType)
    ∧ KubeAPIServerLocalhostSignerCertKey.dependencies = ([] : List AssetType)
    ∧ KubeAPIServerServiceNetworkSignerCertKey.dependencies = ([] : List AssetType)
    ∧ KubeAPIServerLBSignerCertKey.dependencies = ([] : List AssetType) :=
  ⟨rfl, rfl, rfl, rfl⟩

/-- C8: the derived-address helper (`HostAtOffset`, realized as
`cidrhost`) is a pure function that returns the host at the requested
offset above the network base when the offset fits in the network's
address space, and a failure result whenever the offset exceeds that
address space. -/
theorem cidrhost_hostAtOffset_spec (iprange : CIDR) (hostNum : Nat) :
    (hostNum < 2 ^ (32 - iprange.maskSize) →
        cidrhost iprange hostNum = Except.ok (ipv4String (networkBase iprange + hostNum)))
    ∧ (2 ^ (32 - iprange.maskSize) ≤ hostNum →
        ∃ e, cidrhost iprange hostNum = Except.error e) := by
  constructor
  · intro h
    unfold cidrhost
    rw [if_pos h]
  · intro h
    unfold cidrhost
    rw [if_neg (Nat.not_lt.mpr h)]
    exact ⟨_, rfl⟩

/-- C8 witness: offset 1 fits in `10.0.0.0/16` and yields `10.0.0.1`,
while offset 1 exceeds the address space of a `/32` network. -/
theorem cidrhost_hostAtOffset_spec_witness :
    cidrhost { ip := 167772160, maskSize := 16 } 1 = Except.ok "10.0.0.1"
    ∧ ∃ e, cidrhost { ip := 167772160, maskSize := 32 } 1 = Except.error e :=
  ⟨(cidrhost_hostAtOffset_spec { ip := 167772160, maskSize := 16 } 1).1 (by decide),
    (cidrhost_hostAtOffset_spec { ip := 167772160, maskSize := 32 } 1).2 (by decide)⟩

/-- C9: in every CA-bundle asset's `Generate`, the type assertion of
each declared dependency to `CertInterface` succeeds (the asserted
dependency list is returned unchanged, and every asset in every
bundle's `Dependencies()` implements `CertInterface`), so the assertion
can never panic. -/
theorem bundle_dependencies_implement_certInterface :
    assertCertInterfaceAll KubeAPIServerToKubeletCABundle.dependencies
        = some KubeAPIServerToKubeletCABundle.dependencies
    ∧ assertCertInterfaceAll KubeAPIServerLocalhostCABundle.dependencies
        = some KubeAPIServerLocalhostCABundle.dependencies
    ∧ assertCertInterfaceAll KubeAPIServerServiceNetworkCABundle.dependencies
        = some KubeAPIServerServiceNetworkCABundle.dependencies
    ∧ assertCertInterfaceAll KubeAPIServerLBCABundle.dependencies
        = some KubeAPIServerLBCABundle.dependencies
    ∧ (KubeAPIServerToKubeletCABundle.dependencies ++ KubeAPIServerLocalhostCABundle.dependencies
        ++ KubeAPIServerServiceNetworkCABundle.dependencies
        ++ KubeAPIServerLBCABundle.dependencies).all implementsCertInterface = true := by
  decide

/-- C10: every leaf in this file whose extended key usages include
server authentication passes `AppendParent` to
`SignedCertKey.Generate`, and a leaf without server authentication is
necessarily the client-auth-only `KubeAPIServerToKubeletClientCertKey`,
which passes `DoNotAppendParent`. -/
theorem serverAuth_policy_matches (a : FileAsset) (p : Parents)
    (cfg : CertCfg) (ca : AssetType) (baseName : String) (policy : ChainPolicy)
    (h : genSignedCall (FileAsset.generate a p) = some (cfg, ca, baseName, policy)) :
    (ExtKeyUsage.serverAuth ∈ cfg.extKeyUsages → policy = ChainPolicy.appendParent)
    ∧ (ExtKeyUsage.serverAuth ∉ cfg.extKeyUsages →
        a = FileAsset.kubeAPIServerToKubeletClientCertKey
        ∧ policy = ChainPolicy.doNotAppendParent) := by
  cases a
  case apiServerCertKey =>
    obtain ⟨addr, -, ht⟩ := apiServer_genSignedCall_shape p _ h
    obtain ⟨rfl, rfl, rfl, rfl⟩ := Prod.mk.injEq .. ▸ ht
    exact ⟨fun _ => rfl, fun hn => absurd (List.Mem.head _) hn⟩
  case kubeAPIServerServiceNetworkServerCertKey =>
    obtain ⟨addr, -, ht⟩ := serviceNetworkServer_genSignedCall_shape p _ h
    obtain ⟨rfl, rfl, rfl, rfl⟩ := Prod.mk.injEq .. ▸ ht
    exact ⟨fun _ => rfl, fun hn => absurd (List.Mem.head _) hn⟩
  case kubeAPIServerToKubeletClientCertKey =>
    obtain ⟨rfl, rfl, rfl, rfl⟩ := Prod.mk.injEq .. ▸ Option.some.inj h
    exact ⟨fun hs => absurd hs (by decide), fun _ => ⟨rfl, rfl⟩⟩
  case kubeAPIServerLocalhostServerCertKey =>
    obtain ⟨rfl, rfl, rfl, rfl⟩ := Prod.mk.injEq .. ▸ Option.some.inj h
    exact ⟨fun _ => rfl, fun hn => absurd (List.Mem.head _) hn⟩
  case kubeAPIServerLBServerCertKey =>
    obtain ⟨rfl, rfl, rfl, rfl⟩ := Prod.mk.injEq .. ▸ Option.some.inj h
    exact ⟨fun _ => rfl, fun hn => absurd (List.Mem.head _) hn⟩
  case kubeAPIServerToKubeletSignerCertKey => exact Option.noConfusion h
  case kubeAPIServerLocalhostSignerCertKey => exact Option.noConfusion h
  case kubeAPIServerServiceNetworkSignerCertKey => exact Option.noConfusion h
  case kubeAPIServerLBSignerCertKey => exact Option.noConfusion h
  case kubeAPIServerToKubeletCABundle => exact Option.noConfusion h
  case kubeAPIServerLocalhostCABundle => exact Option.noConfusion h
  case kubeAPIServerServiceNetworkCABundle => exact Option.noConfusion h
  case kubeAPIServerLBCABundle => exact Option.noConfusion h

/-- C10 witness: the localhost serving leaf makes a concrete signed
call whose extended key usages include server auth, and the policy the
theorem yields for it is `AppendParent`. -/
theorem serverAuth_policy_matches_witness :
    genSignedCall (FileAsset.generate FileAsset.kubeAPIServerLocalhostServerCertKey parents0)
        = some (KubeAPIServerLocalhostServerCertKey.certCfg,
            AssetType.kubeAPIServerLocalhostSignerCertKey,
            "kube-apiserver-localhost-server", ChainPolicy.appendParent)
    ∧ ExtKeyUsage.serverAuth ∈ KubeAPIServerLocalhostServerCertKey.certCfg.extKeyUsages
    ∧ ChainPolicy.appendParent = ChainPolicy.appendParent :=
  ⟨rfl, by decide,
    (serverAuth_policy_matches FileAsset.kubeAPIServerLocalhostServerCertKey parents0
      KubeAPIServerLocalhostServerCertKey.certCfg
      AssetType.kubeAPIServerLocalhostSignerCertKey
      "kube-apiserver-localhost-server" ChainPolicy.appendParent rfl).1 (by decide)⟩
